import Mathlib

/-!
# Verification of the Ouroboros background-consciousness core

Shallow embedding of the scheduler (`src/consciousness.ts`), the persisted
state / budget ledger (`src/state.ts`), the file-I/O helpers (`src/utils.ts`),
the `set_next_wakeup` MCP tool (`src/mcp-server.ts`) and the knowledge-base
part of the memory store (`src/memory.ts`), together with theorems settling
the specification claims about them.

JavaScript numbers are modelled as `Rat` (all values the claims touch are
exact small decimals), timestamps as `Rat` milliseconds, and the single
`setTimeout` handle as a `Bool` flag (`timerPending`): the callback fires at
most once and clears the handle (`this.timer = null`) before calling `tick`,
which is exactly how the source manipulates it.
-/

/-! ## Scheduler (src/consciousness.ts) -/

/-- Constant `DEEP_TICK_INTERVAL = 3` — every Nth tick is deep. -/
def DEEP_TICK_INTERVAL : Nat := 3

/-- The slice of `AppConfig` the scheduler logic reads. -/
structure Config where
  budgetLimitUsd : Rat
  bgBudgetPct : Rat
  deepMode : Bool
  defaultWakeupSec : Rat
  deriving Repr, DecidableEq

/-- Events appended to `events.jsonl` / emitted by a tick, abstracted to the
fields the claims are about.  `error` is the structured
`consciousness_error` entry written by the catch-block of `tick`. -/
inductive Event where
  | wake (deep : Bool)
  | done (deep : Bool)
  | error (msg : String)
  | budgetSkip
  deriving Repr, DecidableEq

/-- Mutable fields of `BackgroundConsciousness`:
`timer` (modelled as the Bool `timerPending`), `paused`, `running`,
`wakeupSec`, `observations`, `tickCount`, `lastTickAt`. -/
structure Sched where
  running : Bool
  paused : Bool
  timerPending : Bool
  tickCount : Nat
  lastTickAt : Rat
  wakeupSec : Rat
  observations : List String
  deriving Repr, DecidableEq

/-- Constructor-time field initialisation (`timer = null`, `paused = false`,
`running = false`, `tickCount = 0`, `lastTickAt = 0`,
`wakeupSec = config.defaultWakeupSec`, `observations = []`). -/
def initSched (cfg : Config) : Sched :=
  { running := false, paused := false, timerPending := false,
    tickCount := 0, lastTickAt := 0, wakeupSec := cfg.defaultWakeupSec,
    observations := [] }

/-- `scheduleNext()`: returns if not running, else arms the single timer. -/
def scheduleNext (s : Sched) : Sched :=
  if !s.running then s else { s with timerPending := true }

/-- `start()`: no-op if already running; else sets running, clears paused and
schedules the first timer.  (It also persists `bgEnabled = true`, which does
not touch any `Sched` field.) -/
def start (s : Sched) : Sched :=
  if s.running then s
  else scheduleNext { s with running := true, paused := false }

/-- `stop()`: clears running and any pending timer (and persists
`bgEnabled = false`). -/
def stop (s : Sched) : Sched :=
  { s with running := false, timerPending := false }

/-- `pause()`: sets the paused flag, nothing else. -/
def pause (s : Sched) : Sched :=
  { s with paused := true }

/-- `resume()`: returns if not running; else clears paused and, if no timer
is pending, schedules one. -/
def resume (s : Sched) : Sched :=
  if !s.running then s
  else
    let s1 := { s with paused := false }
    if !s1.timerPending then scheduleNext s1 else s1

/-- `injectObservation(text)`. -/
def injectObservation (text : String) (s : Sched) : Sched :=
  { s with observations := s.observations ++ [text] }

/-- `isHealthy()`: true if not running, or never ticked, or the last tick
completed less than `3 × wakeupSec` (in ms) ago. -/
def isHealthy (s : Sched) (now : Rat) : Bool :=
  if !s.running then true
  else if s.lastTickAt == 0 then true
  else decide (now - s.lastTickAt < s.wakeupSec * 1000 * 3)

/-- Result of one `tick()` call: the new scheduler state, the events the tick
appended, and which episode body was invoked (`some true` = `thinkDeep`,
`some false` = `think`, `none` = no episode ran). -/
structure TickOut where
  sched : Sched
  events : List Event
  episode : Option Bool
  deriving Repr, DecidableEq

/-- `tick()` (src/consciousness.ts lines 134–173).  The episode body
(`think` / `thinkDeep`) is a black-box LLM call; it is abstracted by the events
`epEvents` it appended before returning or throwing and by its outcome
`epResult` (`.error msg` = the body threw).  Everything else — the
paused/stopped guard, the background-budget soft skip, the tick counter, the
light/deep decision, the try/catch that appends a `consciousness_error`
event, the `lastTickAt` stamp and the unconditional reschedule — is
translated directly from the source. -/
def tick (cfg : Config) (spentUsd : Rat) (epEvents : List Event)
    (epResult : Except String Unit) (now : Rat) (s : Sched) : TickOut :=
  if !s.running || s.paused then
    -- "If paused, don't schedule — resume() will do it"
    { sched := if s.running && !s.paused then scheduleNext s else s,
      events := [], episode := none }
  else
    let bgBudgetLimit : Option Rat :=
      if cfg.budgetLimitUsd > 0 then
        some (cfg.budgetLimitUsd * cfg.bgBudgetPct / 100)
      else none  -- Infinity
    if (match bgBudgetLimit with
        | some l => decide (spentUsd > l)
        | none => false) then
      { sched := scheduleNext s, events := [Event.budgetSkip], episode := none }
    else
      let s1 := { s with tickCount := s.tickCount + 1 }
      let isDeep := cfg.deepMode && s1.tickCount % DEEP_TICK_INTERVAL == 0
      -- try { think/thinkDeep } catch { log consciousness_error } ;
      -- the episode body consumes (clears) pending observations.
      let evs := match epResult with
        | .ok _ => epEvents
        | .error e => epEvents ++ [Event.error e]
      { sched := scheduleNext { s1 with lastTickAt := now, observations := [] },
        events := evs, episode := some isDeep }

/-- The `setTimeout` callback: `this.timer = null; this.tick();`. -/
def timerFire (cfg : Config) (spentUsd : Rat) (epEvents : List Event)
    (epResult : Except String Unit) (now : Rat) (s : Sched) : TickOut :=
  tick cfg spentUsd epEvents epResult now { s with timerPending := false }

/-- The operations that can touch the scheduler state. -/
inductive Op where
  | start
  | stop
  | pause
  | resume
  | injectObservation (text : String)
  | timerFire (spentUsd : Rat) (epEvents : List Event)
      (epResult : Except String Unit) (now : Rat)

/-- Apply one operation to the scheduler state. -/
def applyOp (cfg : Config) : Op → Sched → Sched
  | .start, s => start s
  | .stop, s => stop s
  | .pause, s => pause s
  | .resume, s => resume s
  | .injectObservation t, s => injectObservation t s
  | .timerFire sp ev er now, s => (timerFire cfg sp ev er now s).sched

/-- Fire the timer `n` times in a row (budget state, episode outcome and
clock fixed), collecting which episode each activation ran. -/
def runTicks (cfg : Config) (spentUsd : Rat) (s : Sched) :
    Nat → List (Option Bool) × Sched
  | 0 => ([], s)
  | n + 1 =>
    let out := timerFire cfg spentUsd [] (Except.ok ()) 0 s
    let rest := runTicks cfg spentUsd out.sched n
    (out.episode :: rest.1, rest.2)

/-! ## Persisted state and budget ledger (src/state.ts, src/types.ts) -/

/-- `StateData` (src/types.ts).  JavaScript numbers are modelled as `Rat`. -/
structure StateData where
  createdAt : String
  sessionId : String
  spentUsd : Rat
  spentCalls : Rat
  spentTokensPrompt : Rat
  spentTokensCompletion : Rat
  currentBranch : Option String
  currentSha : Option String
  bgEnabled : Bool
  bgWakeupSec : Rat
  lastInteractionAt : String
  deriving Repr, DecidableEq

/-- `defaultState()` — `createdAt`/`lastInteractionAt` come from
`utcNowIso()` and `sessionId` from `crypto.randomUUID()`, both
runtime-generated, so they are parameters here. -/
def defaultState (nowIso uuid : String) : StateData :=
  { createdAt := nowIso, sessionId := uuid,
    spentUsd := 0, spentCalls := 0,
    spentTokensPrompt := 0, spentTokensCompletion := 0,
    currentBranch := none, currentSha := none,
    bgEnabled := false, bgWakeupSec := 300,
    lastInteractionAt := nowIso }

/-- A successfully parsed `state.json`: `JSON.parse(raw) as Partial<StateData>`
— each field independently present or absent. -/
structure PartialStateData where
  createdAt : Option String := none
  sessionId : Option String := none
  spentUsd : Option Rat := none
  spentCalls : Option Rat := none
  spentTokensPrompt : Option Rat := none
  spentTokensCompletion : Option Rat := none
  currentBranch : Option (Option String) := none
  currentSha : Option (Option String) := none
  bgEnabled : Option Bool := none
  bgWakeupSec : Option Rat := none
  lastInteractionAt : Option String := none
  deriving Repr, DecidableEq

/-- The object spread `{ ...defaultState(), ...obj }`: a field present in
`obj` wins, a missing one keeps the default. -/
def mergeState (d : StateData) (p : PartialStateData) : StateData :=
  { createdAt := p.createdAt.getD d.createdAt,
    sessionId := p.sessionId.getD d.sessionId,
    spentUsd := p.spentUsd.getD d.spentUsd,
    spentCalls := p.spentCalls.getD d.spentCalls,
    spentTokensPrompt := p.spentTokensPrompt.getD d.spentTokensPrompt,
    spentTokensCompletion := p.spentTokensCompletion.getD d.spentTokensCompletion,
    currentBranch := p.currentBranch.getD d.currentBranch,
    currentSha := p.currentSha.getD d.currentSha,
    bgEnabled := p.bgEnabled.getD d.bgEnabled,
    bgWakeupSec := p.bgWakeupSec.getD d.bgWakeupSec,
    lastInteractionAt := p.lastInteractionAt.getD d.lastInteractionAt }

/-- Serialising a full `StateData` (what `JSON.stringify(state)` puts on
disk): every field present. -/
def toPartial (st : StateData) : PartialStateData :=
  { createdAt := some st.createdAt, sessionId := some st.sessionId,
    spentUsd := some st.spentUsd, spentCalls := some st.spentCalls,
    spentTokensPrompt := some st.spentTokensPrompt,
    spentTokensCompletion := some st.spentTokensCompletion,
    currentBranch := some st.currentBranch, currentSha := some st.currentSha,
    bgEnabled := some st.bgEnabled, bgWakeupSec := some st.bgWakeupSec,
    lastInteractionAt := some st.lastInteractionAt }

/-- The on-disk `state.json` as `loadState` sees it: either
`readFileSync`/`JSON.parse` throws (`unreadable`) or it parses to a record
of optional fields. -/
inductive StateFile where
  | unreadable
  | parsed (p : PartialStateData)
  deriving Repr, DecidableEq

/-- `saveState(dataDir, state)`: writes the full serialised state (via the
atomic `writeText`). -/
def saveState (st : StateData) : StateFile :=
  StateFile.parsed (toPartial st)

/-- `loadState(dataDir)`: on a parsed file, merge with defaults and return —
the disk is left untouched; on a read/parse failure, create a default state,
persist it and return it. -/
def loadState (disk : StateFile) (nowIso uuid : String) :
    StateData × StateFile :=
  match disk with
  | .parsed p => (mergeState (defaultState nowIso uuid) p, disk)
  | .unreadable =>
    let st := defaultState nowIso uuid
    (st, saveState st)

/-- `updateBudget(dataDir, costUsd, turns, promptTokens, completionTokens)`:
load, increment the four spend counters, persist, return the new state. -/
def updateBudget (disk : StateFile) (nowIso uuid : String)
    (costUsd turns promptTokens completionTokens : Rat) :
    StateData × StateFile :=
  let lr := loadState disk nowIso uuid
  let st := lr.1
  let st1 := { st with
    spentUsd := st.spentUsd + costUsd,
    spentCalls := st.spentCalls + turns,
    spentTokensPrompt := st.spentTokensPrompt + promptTokens,
    spentTokensCompletion := st.spentTokensCompletion + completionTokens }
  (st1, saveState st1)

/-! ## File-write traces (src/utils.ts) -/

/-- Filesystem operations a write helper performs, in order. -/
inductive FsOp where
  | mkdirRec (dir : String)
  | writeFile (path : String) (content : String)
  | renameFile (src dst : String)
  | appendFile (path : String) (content : String)
  deriving Repr, DecidableEq

/-- `path.dirname` (POSIX approximation: drop the last `/`-component; only
used as data, never reasoned about). -/
def dirname (p : String) : String :=
  let parts := p.splitOn "/"
  if parts.length ≤ 1 then "." else String.intercalate "/" parts.dropLast

/-- `writeText(filePath, content)`: mkdir, write `filePath + ".tmp." + pid`,
rename the temp file over the target. -/
def writeText (pid : String) (filePath content : String) : List FsOp :=
  [ FsOp.mkdirRec (dirname filePath),
    FsOp.writeFile (filePath ++ ".tmp." ++ pid) content,
    FsOp.renameFile (filePath ++ ".tmp." ++ pid) filePath ]

/-- `appendJsonl(filePath, entry)`: mkdir, then `fs.appendFileSync` directly
on the target file. -/
def appendJsonl (filePath entryJson : String) : List FsOp :=
  [ FsOp.mkdirRec (dirname filePath),
    FsOp.appendFile filePath (entryJson ++ "\n") ]

/-- An operation writes the target file in place (a crash during it can
leave the target truncated or half-written).  A `renameFile` into the target is the
atomic replacement and is not an in-place write. -/
def modifiesDirectly (op : FsOp) (target : String) : Bool :=
  match op with
  | .writeFile p _ => decide (p = target)
  | .appendFile p _ => decide (p = target)
  | _ => false

/-- A trace is temp+rename-atomic for `target` iff no operation in it writes
`target` in place. -/
def tempRenameAtomic (trace : List FsOp) (target : String) : Prop :=
  ∀ op ∈ trace, modifiesDirectly op target = false

/-! ## The `set_next_wakeup` MCP tool (src/mcp-server.ts, src/consciousness.ts) -/

/-- The zod input schema `z.number().min(30).max(7200)` — the SDK rejects the
tool call before the handler runs when the argument is out of range. -/
def validWakeupSeconds (seconds : Rat) : Bool :=
  decide (30 ≤ seconds) && decide (seconds ≤ 7200)

/-- The `onSetWakeup` callback wired in the `BackgroundConsciousness`
constructor: set the in-memory `wakeupSec`, then load the persisted state,
set `bgWakeupSec` and save. -/
def onSetWakeup (sched : Sched) (disk : StateFile) (nowIso uuid : String)
    (sec : Rat) : Sched × StateFile :=
  let sched1 := { sched with wakeupSec := sec }
  let lr := loadState disk nowIso uuid
  let st := { lr.1 with bgWakeupSec := sec }
  (sched1, saveState st)

/-- The `set_next_wakeup` tool call: zod validation, then the handler invokes
`onSetWakeup`.  `.error` = the SDK returned a validation error and the
handler never ran. -/
def setNextWakeupTool (sched : Sched) (disk : StateFile)
    (nowIso uuid : String) (seconds : Rat) :
    Except String (Sched × StateFile) :=
  if !validWakeupSeconds seconds then
    Except.error "Invalid input: seconds out of range"
  else Except.ok (onSetWakeup sched disk nowIso uuid seconds)

/-! ## Knowledge base (src/memory.ts) -/

/-- `RESERVED_TOPICS`. -/
def RESERVED_TOPICS : List String := ["_index", "con", "prn", "aux", "nul"]

/-- `INDEX_FILE`. -/
def INDEX_FILE : String := "_index.md"

/-- `path.join(dataDir, "memory/knowledge")`. -/
def knowledgeDirPath (dataDir : String) : String :=
  dataDir ++ "/memory/knowledge"

/-- `s.includes(c)` for a single character. -/
def includesChar (s : String) (c : Char) : Bool :=
  s.data.any (fun x => decide (x = c))

/-- `s.includes("..")`: two consecutive dots somewhere in the string. -/
def hasDotDotList : List Char → Bool
  | '.' :: '.' :: _ => true
  | _ :: rest => hasDotDotList rest
  | [] => false

/-- `topic.includes("..")`. -/
def hasDotDot (s : String) : Bool := hasDotDotList s.data

/-- A character of the regex class `[a-zA-Z0-9_.-]`. -/
def isTopicMidChar (c : Char) : Bool :=
  c.isAlphanum || decide (c = '_') || decide (c = '.') || decide (c = '-')

/-- `VALID_TOPIC.test`: the regex
`^[a-zA-Z0-9][a-zA-Z0-9_.-]{0,98}[a-zA-Z0-9]$|^[a-zA-Z0-9]$` — either a
single alphanumeric character, or 2–100 characters whose first and last are
alphanumeric and whose middle is drawn from `[a-zA-Z0-9_.-]`. -/
def validTopicTail (first : Char) (rest : List Char) : Bool :=
  match rest with
  | [] => first.isAlphanum
  | _ :: _ =>
    first.isAlphanum && (rest.getLastD 'a').isAlphanum
      && rest.dropLast.all isTopicMidChar
      && decide (rest.dropLast.length ≤ 98)

/-- `VALID_TOPIC.test(s)` on the whole string. -/
def validTopicPattern (s : String) : Bool :=
  match s.data with
  | [] => false
  | c :: rest => validTopicTail c rest

/-- `topic.trim()` (JavaScript): drop whitespace from both ends. -/
def jsTrim (s : String) : String :=
  String.mk
    (((s.data.dropWhile Char.isWhitespace).reverse.dropWhile
      Char.isWhitespace).reverse)

/-- `sanitizeTopic(topic)`: trim; reject empty, path separators / `..`,
regex mismatch, and reserved names; otherwise return the trimmed topic.
`.error m` models the thrown `Error(m)`. -/
def sanitizeTopic (topic : String) : Except String String :=
  let t := jsTrim topic
  if t = "" then Except.error "Topic must be a non-empty string"
  else if includesChar t '/' || includesChar t '\\' || hasDotDot t then
    Except.error ("Invalid characters in topic: " ++ t)
  else if !validTopicPattern t then
    Except.error ("Invalid topic name: " ++ t ++
      ". Use alphanumeric, underscore, hyphen, dot.")
  else if RESERVED_TOPICS.contains t.toLower then
    Except.error ("Reserved topic name: " ++ t)
  else Except.ok t

/-- What a knowledge call did: the string returned to the caller (never an
exception — `knowledgeRead`/`knowledgeWrite` catch `sanitizeTopic`'s error
and return a warning string), the file paths it read (or probed with
`existsSync`), and the files it wrote with their contents. -/
structure KnowledgeResult where
  message : String
  reads : List String
  writes : List (String × String)
  deriving Repr, DecidableEq

/-- `Memory.knowledgeRead(topic)`.  The filesystem is `fs : path ↦ contents`
(`none` = no such file). -/
def knowledgeRead (fs : String → Option String) (dataDir topic : String) :
    KnowledgeResult :=
  match sanitizeTopic topic with
  | .error m => { message := "Warning: Invalid topic: " ++ m,
                  reads := [], writes := [] }
  | .ok s =>
    let filePath := knowledgeDirPath dataDir ++ "/" ++ (s ++ ".md")
    match fs filePath with
    | none => { message := "Topic '" ++ s ++
                  "' not found. Use knowledge_list to see available topics.",
                reads := [filePath], writes := [] }
    | some txt => { message := txt, reads := [filePath], writes := [] }

/-- One step of `extractSummary`'s line loop (collects up to 3 snippets). -/
def cleanSummaryLine (stripped : String) : String :=
  let cs := stripped.data
  -- .replace(/^[-*]\s*/, "")
  let cs1 := match cs with
    | c :: rest =>
      if c = '-' ∨ c = '*' then rest.dropWhile (fun ch => ch.isWhitespace)
      else cs
    | [] => cs
  -- .replace(/^#+\s*/, "")
  let cs2 := match cs1 with
    | c :: _ =>
      if c = '#' then (cs1.dropWhile (fun ch => ch = '#')).dropWhile
        (fun ch => ch.isWhitespace)
      else cs1
    | [] => cs1
  (String.mk cs2).trim

/-- The snippet-collecting loop of `extractSummary`. -/
def collectSnippets : List String → List String → List String
  | [], acc => acc.reverse
  | l :: rest, acc =>
    let stripped := l.trim
    if stripped = "" ∨ stripped.startsWith "#" then collectSnippets rest acc
    else
      let clean := cleanSummaryLine stripped
      let acc1 := if clean = "" then acc else clean :: acc
      if acc1.length ≥ 3 then acc1.reverse else collectSnippets rest acc1

/-- `extractSummary(text)` with the default `maxChars = 150`.  (JS slices by
UTF-16 units; `String.take` counts code points — identical on ASCII.) -/
def extractSummary (text : String) : String :=
  let snippets := collectSnippets (text.trim.splitOn "\n") []
  let summary := String.intercalate " | " snippets
  if summary.length > 150 then summary.take 149 ++ "…" else summary

/-- Header-end scan of `updateIndexEntry`: index of the line after the first
`"# "` heading (plus one more if a blank line follows); 0 if none found. -/
def findHeaderEnd : List String → Nat → Nat
  | [], _ => 0
  | l :: rest, i =>
    if l.startsWith "# " then
      match rest with
      | r :: _ => if r.trim = "" then i + 2 else i + 1
      | [] => i + 1
    else findHeaderEnd rest (i + 1)

/-- Stable insertion used to model `entries.sort((a, b) =>
a.toLowerCase().localeCompare(b.toLowerCase()))` (locale order approximated
by code-point order on the lowercased strings). -/
def insertSortedEntry (a : String) : List String → List String
  | [] => [a]
  | b :: rest =>
    if a.toLower ≤ b.toLower then a :: b :: rest
    else b :: insertSortedEntry a rest

/-- Insertion sort over index entries. -/
def sortEntries : List String → List String
  | [] => []
  | a :: rest => insertSortedEntry a (sortEntries rest)

/-- `Memory.updateIndexEntry(topic)`: read the index (or start a fresh
header), drop the topic's old entry, re-add it from the topic file's summary,
sort, and return `(indexPath, newIndexContent)` for the final `writeText`. -/
def updateIndexEntry (fs : String → Option String) (dataDir topic : String) :
    String × String :=
  let kdir := knowledgeDirPath dataDir
  let indexPath := kdir ++ "/" ++ INDEX_FILE
  let topicPath := kdir ++ "/" ++ (topic ++ ".md")
  let indexContent := match fs indexPath with
    | some c => c
    | none => "# Knowledge Base Index\n\n"
  let lines := indexContent.splitOn "\n"
  let headerEnd := findHeaderEnd lines 0
  let header := String.intercalate "\n" (lines.take headerEnd)
  let pattern := "- **" ++ topic ++ "**:"
  let kept := (lines.drop headerEnd).filter (fun l =>
    !(l.trim == "") && !(l.trim == "(empty)") && !(l.trim.startsWith pattern))
  let entries := match fs topicPath with
    | some text =>
      sortEntries (kept ++
        ["- **" ++ topic ++ "**: " ++ extractSummary text.trim])
    | none => kept
  let newIndex :=
    if entries.length > 0 then
      header.trimRight ++ "\n\n" ++ String.intercalate "\n" entries ++ "\n"
    else header.trimRight ++ "\n\n(empty)\n"
  (indexPath, newIndex)

/-- Write mode of `knowledge_write`. -/
inductive WriteMode where
  | overwrite
  | append
  deriving Repr, DecidableEq

/-- `"overwrite"` / `"append"` as they appear in the saved-confirmation. -/
def writeModeStr : WriteMode → String
  | .overwrite => "overwrite"
  | .append => "append"

/-- `Memory.knowledgeWrite(topic, content, mode)`: sanitize (returning a
warning on failure), write the topic file (appending to any existing content
in append mode), then update the index.  `reads`/`writes` list every path the
call touches, in order. -/
def knowledgeWrite (fs : String → Option String)
    (dataDir topic content : String) (mode : WriteMode) : KnowledgeResult :=
  match sanitizeTopic topic with
  | .error m => { message := "Warning: Invalid topic: " ++ m,
                  reads := [], writes := [] }
  | .ok s =>
    let kdir := knowledgeDirPath dataDir
    let filePath := kdir ++ "/" ++ (s ++ ".md")
    let newContent := match mode with
      | .append =>
        (match fs filePath with
         | some existing =>
           (if existing.length > 0 ∧ ¬ existing.endsWith "\n" then
              existing ++ "\n"
            else existing) ++ content
         | none => content)
      | .overwrite => content
    let fs1 := fun p => if p = filePath then some newContent else fs p
    let idx := updateIndexEntry fs1 dataDir s
    { message := "Knowledge '" ++ s ++ "' saved (" ++ writeModeStr mode ++ ").",
      reads := (match mode with
        | .append => [filePath]
        | .overwrite => []) ++ [kdir ++ "/" ++ INDEX_FILE, filePath],
      writes := [(filePath, newContent), idx] }

/-- Path confinement: `p` is a single file directly inside the knowledge
directory — it is `kdir/name` where `name` is non-empty, contains no path
separator, and is not a `.`/`..` traversal component. -/
def inKnowledgeDir (dataDir p : String) : Prop :=
  ∃ name, p = knowledgeDirPath dataDir ++ "/" ++ name ∧ name ≠ "" ∧
    includesChar name '/' = false ∧ includesChar name '\\' = false ∧
    name ≠ "." ∧ name ≠ ".."

/-! ## Claim theorems -/

/-- Helper: the background-budget soft-skip condition of `tick` is false when
the limit is unlimited or the spend is within the derived background cap. -/
theorem bgSkip_false (cfg : Config) (spent : Rat)
    (hb : cfg.budgetLimitUsd > 0 →
      spent ≤ cfg.budgetLimitUsd * cfg.bgBudgetPct / 100) :
    (match (if cfg.budgetLimitUsd > 0 then
        some (cfg.budgetLimitUsd * cfg.bgBudgetPct / 100) else none) with
      | some l => decide (spent > l)
      | none => false) = false := by
  by_cases h : cfg.budgetLimitUsd > 0
  · simp only [if_pos h]
    simpa using hb h
  · simp only [if_neg h]

/-- C1: if the episode body of a tick throws, the tick catches it, appends a
structured `consciousness_error` event, records the completion time, and
reschedules — the scheduler keeps running and, with the running flag set, a
timer is pending again. -/
theorem tick_error_caught_and_rescheduled (cfg : Config) (spent : Rat)
    (epEvents : List Event) (msg : String) (now : Rat) (s : Sched)
    (hr : s.running = true) (hp : s.paused = false)
    (hb : cfg.budgetLimitUsd > 0 →
      spent ≤ cfg.budgetLimitUsd * cfg.bgBudgetPct / 100) :
    (tick cfg spent epEvents (Except.error msg) now s).episode.isSome = true ∧
    (tick cfg spent epEvents (Except.error msg) now s).events
      = epEvents ++ [Event.error msg] ∧
    (tick cfg spent epEvents (Except.error msg) now s).sched.lastTickAt = now ∧
    (tick cfg spent epEvents (Except.error msg) now s).sched.running = true ∧
    (tick cfg spent epEvents (Except.error msg) now s).sched.timerPending = true := by
  have hc := bgSkip_false cfg spent hb
  simp [tick, hr, hp, hc, scheduleNext]

/-- Concrete scheduler state for the C1 witness: running, unpaused. -/
def sC1 : Sched :=
  { running := true, paused := false, timerPending := false, tickCount := 4,
    lastTickAt := 100, wakeupSec := 300, observations := [] }

/-- Concrete config for the C1 witness: unlimited budget. -/
def cfgC1 : Config :=
  { budgetLimitUsd := 0, bgBudgetPct := 50, deepMode := true,
    defaultWakeupSec := 300 }

/-- Witness for C1 at a concrete failing tick. -/
theorem tick_error_caught_and_rescheduled_witness :
    (tick cfgC1 0 [Event.wake false] (Except.error "boom") 777 sC1).events
      = [Event.wake false, Event.error "boom"] ∧
    (tick cfgC1 0 [Event.wake false] (Except.error "boom") 777 sC1).sched.lastTickAt = 777 ∧
    (tick cfgC1 0 [Event.wake false] (Except.error "boom") 777 sC1).sched.timerPending = true := by
  have h := tick_error_caught_and_rescheduled cfgC1 0 [Event.wake false]
    "boom" 777 sC1 rfl rfl (fun hpos => absurd hpos (by norm_num [cfgC1]))
  exact ⟨h.2.1, h.2.2.1, h.2.2.2.2⟩

/-- C2: `pause()` only sets the paused flag (the pending timer survives); a
timer fired while paused runs no episode, logs nothing and does not
reschedule; and from a running paused state with no pending timer, `resume`
is the only operation that arms a timer. -/
theorem pause_flag_only_and_paused_fire_noop (cfg : Config) (s : Sched)
    (sp : Rat) (ev : List Event) (er : Except String Unit) (now : Rat)
    (hp : s.paused = true) :
    (∀ t : Sched, pause t = { t with paused := true }) ∧
    (timerFire cfg sp ev er now s).episode = none ∧
    (timerFire cfg sp ev er now s).events = [] ∧
    (timerFire cfg sp ev er now s).sched.timerPending = false ∧
    (∀ op : Op, s.running = true → s.timerPending = false →
      (applyOp cfg op s).timerPending = true → op = Op.resume) := by
  refine ⟨fun t => rfl, ?_, ?_, ?_, ?_⟩
  · simp [timerFire, tick, hp]
  · simp [timerFire, tick, hp]
  · simp [timerFire, tick, hp]
  · intro op hr ht hsch
    cases op with
    | start => simp [applyOp, start, hr, ht] at hsch
    | stop => simp [applyOp, stop] at hsch
    | pause => simp [applyOp, pause, ht] at hsch
    | resume => rfl
    | injectObservation t => simp [applyOp, injectObservation, ht] at hsch
    | timerFire a b c d =>
      simp [applyOp, timerFire, tick, hp] at hsch

/-- Concrete state for the C2 witness: running, paused, no pending timer. -/
def sC2 : Sched :=
  { running := true, paused := true, timerPending := true, tickCount := 2,
    lastTickAt := 50, wakeupSec := 120, observations := [] }

/-- Witness for C2 at a concrete paused state. -/
theorem pause_flag_only_and_paused_fire_noop_witness :
    (timerFire cfgC1 1 [] (Except.ok ()) 7 sC2).episode = none ∧
    (timerFire cfgC1 1 [] (Except.ok ()) 7 sC2).sched.timerPending = false := by
  have h := pause_flag_only_and_paused_fire_noop cfgC1 sC2 1 [] (Except.ok ()) 7 rfl
  exact ⟨h.2.1, h.2.2.2.1⟩

/-- A paused, stopped scheduler state (reachable: the daemon calls `pause()`
on every foreground message even when the loop is not running). -/
def sC3 : Sched :=
  { running := false, paused := true, timerPending := false, tickCount := 0,
    lastTickAt := 0, wakeupSec := 300, observations := [] }

/-- C3 counterexample: `resume()` does not clear the paused flag when the
scheduler is not running — it returns early, leaving `paused = true`. -/
theorem resume_leaves_paused_when_stopped :
    (resume sC3).paused = true ∧ sC3.paused = true := by
  exact ⟨rfl, rfl⟩

/-- C3 amended: when the scheduler is running, `resume()` clears the paused
flag, schedules exactly one timer if none is pending (arming the flag is its
only other change) and schedules nothing if one is already pending; when the
scheduler is not running, `resume()` is a complete no-op and in particular
does not clear the paused flag. -/
theorem resume_semantics (s : Sched) :
    (s.running = true →
      (resume s).paused = false ∧
      (s.timerPending = false →
        resume s = { s with paused := false, timerPending := true }) ∧
      (s.timerPending = true → resume s = { s with paused := false })) ∧
    (s.running = false → resume s = s) := by
  obtain ⟨r, p, tp, tc, lt, ws, obs⟩ := s
  cases r <;> cases tp <;> simp [resume, scheduleNext]

/-- Witness for C3's amended claim: a running paused state with no pending
timer gets exactly one timer scheduled. -/
theorem resume_semantics_witness :
    (resume sC2).paused = false ∧
    resume { sC2 with timerPending := false }
      = { sC2 with paused := false, timerPending := true } := by
  have h1 := (resume_semantics sC2).1 rfl
  have h2 := (resume_semantics { sC2 with timerPending := false }).1 rfl
  exact ⟨h1.1, h2.2.1 rfl⟩

/-- C4: `isHealthy()` is true iff the scheduler is not running, or no tick
has completed, or the last-tick age is under `3 × wakeupSec` (in ms); it is
false exactly in the complementary case; and immediately after `start()`
with no tick completed it is true. -/
theorem isHealthy_characterisation (s : Sched) (now : Rat) :
    (isHealthy s now = true ↔
      s.running = false ∨ s.lastTickAt = 0 ∨
        now - s.lastTickAt < s.wakeupSec * 1000 * 3) ∧
    (isHealthy s now = false ↔
      s.running = true ∧ s.lastTickAt ≠ 0 ∧
        s.wakeupSec * 1000 * 3 ≤ now - s.lastTickAt) ∧
    (s.lastTickAt = 0 → isHealthy (start s) now = true) := by
  obtain ⟨r, p, tp, tc, lt, ws, obs⟩ := s
  refine ⟨?_, ?_, ?_⟩
  · cases r <;> simp [isHealthy]
  · cases r with
    | false => simp [isHealthy]
    | true =>
      by_cases hlt : lt = 0
      · simp [isHealthy, hlt]
      · simp [isHealthy, hlt, not_lt]
  · intro h
    cases r <;> simp [isHealthy, start, scheduleNext, h]

/-- Concrete unhealthy state for the C4 witness (age exactly 3×wakeup). -/
def sC4 : Sched :=
  { running := true, paused := false, timerPending := true, tickCount := 9,
    lastTickAt := 1000, wakeupSec := 30, observations := [] }

/-- Witness for C4: the concrete state is unhealthy at age 3×wakeup, and a
freshly started scheduler with no completed tick is healthy. -/
theorem isHealthy_characterisation_witness :
    isHealthy sC4 91000 = false ∧ isHealthy (start (initSched cfgC1)) 5 = true := by
  refine ⟨(isHealthy_characterisation sC4 91000).2.1.mpr
    ⟨rfl, by norm_num [sC4], by norm_num [sC4]⟩, ?_⟩
  exact (isHealthy_characterisation (initSched cfgC1) 5).2.2 rfl

/-- Config with the `deepMode` feature toggle off (a supported
`ouroboros.json` setting) and unlimited budget. -/
def cfgC5off : Config :=
  { budgetLimitUsd := 0, bgBudgetPct := 50, deepMode := false,
    defaultWakeupSec := 300 }

/-- Config with `deepMode` on and unlimited budget. -/
def cfgC5on : Config :=
  { budgetLimitUsd := 0, bgBudgetPct := 50, deepMode := true,
    defaultWakeupSec := 300 }

/-- C5 counterexample: with the `deepMode` feature disabled, tick 3 runs a
light episode (`some false`), although `3 mod 3 = 0` — the claim's
unconditional "deep when n mod 3 == 0" fails. -/
theorem third_tick_light_when_deepMode_off :
    (runTicks cfgC5off 0 (start (initSched cfgC5off)) 3).1
      = [some false, some false, some false] ∧
    3 % DEEP_TICK_INTERVAL = 0 := by
  exact ⟨rfl, rfl⟩

/-- C5 amended: when the `deepMode` feature is enabled (`isDeep =
config.features.deepMode && tickCount % DEEP_TICK_INTERVAL === 0`), tick
number n runs a deep episode iff `n mod 3 = 0` and a light one otherwise,
with `DEEP_TICK_INTERVAL = 3`; concretely, ticks 1..12 run
light, light, deep, light, light, deep, light, light, deep, light, light,
deep. -/
theorem deep_tick_selection (cfg : Config) (spent : Rat) (ev : List Event)
    (er : Except String Unit) (now : Rat) (s : Sched)
    (hd : cfg.deepMode = true) (hr : s.running = true) (hp : s.paused = false)
    (hb : cfg.budgetLimitUsd > 0 →
      spent ≤ cfg.budgetLimitUsd * cfg.bgBudgetPct / 100) :
    (tick cfg spent ev er now s).episode
      = some ((s.tickCount + 1) % DEEP_TICK_INTERVAL == 0) ∧
    DEEP_TICK_INTERVAL = 3 ∧
    (runTicks cfgC5on 0 (start (initSched cfgC5on)) 12).1 =
      [some false, some false, some true, some false, some false, some true,
       some false, some false, some true, some false, some false, some true] := by
  have hc := bgSkip_false cfg spent hb
  refine ⟨?_, rfl, rfl⟩
  simp [tick, hr, hp, hc, hd]

/-- Witness for C5's amended claim: tick 6 (tickCount 5 before the tick) of a
deep-enabled scheduler is deep. -/
theorem deep_tick_selection_witness :
    (tick cfgC5on 0 [] (Except.ok ()) 9
      { sC1 with tickCount := 5 }).episode = some true := by
  have h := deep_tick_selection cfgC5on 0 [] (Except.ok ()) 9
    { sC1 with tickCount := 5 } rfl rfl rfl
    (fun hpos => absurd hpos (by norm_num [cfgC5on]))
  simpa using h.1

/-- Helper: reading back a just-saved state returns exactly that state and
leaves the disk unchanged (`{ ...defaultState(), ...full }` keeps every
stored field). -/
theorem loadState_saveState (st : StateData) (n u : String) :
    loadState (saveState st) n u = (st, saveState st) := rfl

/-- C6: starting from a persisted state, `updateBudget(c1, k1)` then
`updateBudget(c2, k2)` yields spend `s + c1 + c2` and calls `k + k1 + k2`;
each update increments the counters, persists the incremented state in the
same step, and returns it; and reloading the final file — with fresh
restart-time defaults — reproduces exactly the persisted values. -/
theorem budget_update_additive (s0 : StateData) (n1 u1 n2 u2 n3 u3 : String)
    (c1 k1 c2 k2 : Rat) :
    (updateBudget (saveState s0) n1 u1 c1 k1 0 0).1.spentUsd
      = s0.spentUsd + c1 ∧
    (updateBudget (saveState s0) n1 u1 c1 k1 0 0).1.spentCalls
      = s0.spentCalls + k1 ∧
    (updateBudget (saveState s0) n1 u1 c1 k1 0 0).2
      = saveState (updateBudget (saveState s0) n1 u1 c1 k1 0 0).1 ∧
    (updateBudget (updateBudget (saveState s0) n1 u1 c1 k1 0 0).2
        n2 u2 c2 k2 0 0).1.spentUsd = s0.spentUsd + c1 + c2 ∧
    (updateBudget (updateBudget (saveState s0) n1 u1 c1 k1 0 0).2
        n2 u2 c2 k2 0 0).1.spentCalls = s0.spentCalls + k1 + k2 ∧
    (updateBudget (updateBudget (saveState s0) n1 u1 c1 k1 0 0).2
        n2 u2 c2 k2 0 0).2
      = saveState (updateBudget (updateBudget (saveState s0) n1 u1 c1 k1 0 0).2
          n2 u2 c2 k2 0 0).1 ∧
    loadState (updateBudget (updateBudget (saveState s0) n1 u1 c1 k1 0 0).2
        n2 u2 c2 k2 0 0).2 n3 u3
      = ((updateBudget (updateBudget (saveState s0) n1 u1 c1 k1 0 0).2
          n2 u2 c2 k2 0 0).1,
         (updateBudget (updateBudget (saveState s0) n1 u1 c1 k1 0 0).2
          n2 u2 c2 k2 0 0).2) := by
  exact ⟨rfl, rfl, rfl, rfl, rfl, rfl, rfl⟩

/-- C7 counterexample: an event-log append (`appendJsonl`, used by
`Memory.appendLog` for `events.jsonl`) writes the live log file in place
with `fs.appendFileSync` — its trace is not temp+rename-atomic for the
target, refuting "this covers all file writes, including appends to the
event log". -/
theorem appendJsonl_not_tempRenameAtomic :
    ¬ tempRenameAtomic
      (appendJsonl "data/logs/events.jsonl" "entry")
      "data/logs/events.jsonl" := by
  intro h
  have hmem : FsOp.appendFile "data/logs/events.jsonl" ("entry" ++ "\n")
      ∈ appendJsonl "data/logs/events.jsonl" "entry" := by
    simp [appendJsonl]
  have := h _ hmem
  simp [modifiesDirectly] at this

/-- C7 amended: every write that goes through `writeText` — persisted state
(`saveState`), scratchpad, identity, knowledge topics and the knowledge
index — is temp+rename-atomic: the target file is only ever replaced whole
by renaming the temp file over it.  Appends to the JSON-lines event logs go
through `appendJsonl`, which writes the target file in place and is not
temp+rename-atomic. -/
theorem writeText_atomic_appendJsonl_not (pid filePath content entry : String) :
    tempRenameAtomic (writeText pid filePath content) filePath ∧
    ∃ op ∈ appendJsonl filePath entry, modifiesDirectly op filePath = true := by
  have hne : filePath ++ ".tmp." ++ pid ≠ filePath := by
    intro h
    have hlen := congrArg String.length h
    rw [String.length_append, String.length_append] at hlen
    have h5 : (".tmp." : String).length = 5 := rfl
    omega
  constructor
  · intro op hop
    simp only [writeText, List.mem_cons, List.mem_singleton] at hop
    rcases hop with h | h | h | h
    · subst h; rfl
    · subst h; simp [modifiesDirectly, hne]
    · subst h; rfl
    · cases h
  · exact ⟨FsOp.appendFile filePath (entry ++ "\n"), by simp [appendJsonl],
      by simp [modifiesDirectly]⟩

/-- Witness for C7's amended claim at a concrete state-file write. -/
theorem writeText_atomic_witness :
    tempRenameAtomic (writeText "4242" "data/state/state.json" "x")
      "data/state/state.json" :=
  (writeText_atomic_appendJsonl_not "4242" "data/state/state.json" "x" "e").1

/-- A persisted state file whose stored wakeup interval is 1 second, far
below the 30-second lower bound. -/
def pC8 : PartialStateData := { bgWakeupSec := some 1 }

/-- C8 counterexample: `loadState` performs no range check — it returns the
out-of-range persisted `bgWakeupSec = 1` unchanged, refuting "every state
returned by load() satisfies it". -/
theorem loadState_returns_out_of_range_wakeup :
    (loadState (StateFile.parsed pC8) "2026-01-01T00:00:00Z" "id").1.bgWakeupSec
      = 1 ∧
    ¬ (30 ≤ (loadState (StateFile.parsed pC8)
        "2026-01-01T00:00:00Z" "id").1.bgWakeupSec) := by
  refine ⟨rfl, ?_⟩
  norm_num [loadState, mergeState, pC8]

/-- C8 amended: the `set_next_wakeup` tool enforces the 30–7200 range — a
call the zod schema accepts has its argument in range, and that argument
becomes both the scheduler's in-memory `wakeupSec` and the persisted
`bgWakeupSec`; `loadState`, however, does not validate: whatever
`bgWakeupSec` the file holds, in range or not, is returned unchanged. -/
theorem wakeup_tool_range_and_load_no_clamp (sched : Sched) (disk : StateFile)
    (n u n2 u2 : String) (sec : Rat) (r : Sched × StateFile)
    (h : setNextWakeupTool sched disk n u sec = Except.ok r) :
    (30 ≤ sec ∧ sec ≤ 7200) ∧
    r.1.wakeupSec = sec ∧
    (loadState r.2 n2 u2).1.bgWakeupSec = sec ∧
    (∀ p : PartialStateData, ∀ v : Rat, p.bgWakeupSec = some v →
      (loadState (StateFile.parsed p) n u).1.bgWakeupSec = v) := by
  unfold setNextWakeupTool at h
  split at h
  · exact absurd h (by simp)
  · next hv =>
    have hrange : 30 ≤ sec ∧ sec ≤ 7200 := by
      simpa [validWakeupSeconds] using hv
    have hr : r = onSetWakeup sched disk n u sec := by
      injection h with h1
      exact h1.symm
    subst hr
    refine ⟨hrange, rfl, ?_, ?_⟩
    · simp [onSetWakeup, loadState_saveState]
    · intro p v hp
      simp [loadState, mergeState, hp]

/-- Witness for C8's amended claim at a concrete accepted tool call. -/
theorem wakeup_tool_range_witness :
    (30 ≤ (600 : Rat) ∧ (600 : Rat) ≤ 7200) ∧
    (onSetWakeup sC1 (StateFile.parsed pC8) "t" "id" 600).1.wakeupSec = 600 := by
  have h := wakeup_tool_range_and_load_no_clamp sC1 (StateFile.parsed pC8)
    "t" "id" "t2" "id2" 600 (onSetWakeup sC1 (StateFile.parsed pC8) "t" "id" 600)
    (by norm_num [setNextWakeupTool, validWakeupSeconds])
  exact ⟨h.1, h.2.1⟩

/-- Helper: a topic accepted by `sanitizeTopic` is the trimmed input and
passed every guard: non-empty, free of `/`, `\` and `..`, matching the topic
regex, not reserved. -/
theorem sanitizeTopic_ok_props (topic s : String)
    (h : sanitizeTopic topic = Except.ok s) :
    s = jsTrim topic ∧ s ≠ "" ∧ includesChar s '/' = false ∧
    includesChar s '\\' = false ∧ hasDotDot s = false ∧
    validTopicPattern s = true ∧
    RESERVED_TOPICS.contains s.toLower = false := by
  unfold sanitizeTopic at h
  dsimp only at h
  split_ifs at h with h1 h2 h3 h4
  injection h with hs
  subst hs
  simp only [Bool.or_eq_true, not_or] at h2
  refine ⟨rfl, h1, ?_, ?_, ?_, ?_, ?_⟩
  · exact Bool.eq_false_iff.mpr h2.1.1
  · exact Bool.eq_false_iff.mpr h2.1.2
  · exact Bool.eq_false_iff.mpr h2.2
  · simpa using h3
  · exact Bool.eq_false_iff.mpr h4

/-- Helper: `includesChar` distributes over string append. -/
theorem includesChar_append (s t : String) (c : Char) :
    includesChar (s ++ t) c = (includesChar s c || includesChar t c) := by
  simp [includesChar, String.data_append, List.any_append]

/-- Helper: the file of a sanitized topic is a single component inside the
knowledge directory. -/
theorem topicFile_inKnowledgeDir (dataDir s : String)
    (h1 : includesChar s '/' = false) (h2 : includesChar s '\\' = false) :
    inKnowledgeDir dataDir (knowledgeDirPath dataDir ++ "/" ++ (s ++ ".md")) := by
  refine ⟨s ++ ".md", rfl, ?_, ?_, ?_, ?_, ?_⟩
  · intro h
    have hl := congrArg String.length h
    rw [String.length_append] at hl
    have h3 : (".md" : String).length = 3 := rfl
    have h0 : ("" : String).length = 0 := rfl
    omega
  · rw [includesChar_append, h1]
    rfl
  · rw [includesChar_append, h2]
    rfl
  · intro h
    have hl := congrArg String.length h
    rw [String.length_append] at hl
    have h3 : (".md" : String).length = 3 := rfl
    have h1d : ("." : String).length = 1 := rfl
    omega
  · intro h
    have hl := congrArg String.length h
    rw [String.length_append] at hl
    have h3 : (".md" : String).length = 3 := rfl
    have h2d : (".." : String).length = 2 := rfl
    omega

/-- Helper: the knowledge index file is a single component inside the
knowledge directory. -/
theorem indexFile_inKnowledgeDir (dataDir : String) :
    inKnowledgeDir dataDir (knowledgeDirPath dataDir ++ "/" ++ INDEX_FILE) := by
  exact ⟨INDEX_FILE, rfl, by decide, by decide, by decide, by decide, by decide⟩

/-- Helper: the index path returned by `updateIndexEntry` is the knowledge
directory's `_index.md`, whatever the filesystem holds. -/
theorem updateIndexEntry_fst (fs : String → Option String)
    (dataDir topic : String) :
    (updateIndexEntry fs dataDir topic).1
      = knowledgeDirPath dataDir ++ "/" ++ INDEX_FILE := rfl

/-- C9: each invalid topic class (empty after trimming; containing `/`, `\`
or `..`; failing the alphanumeric/underscore/hyphen/dot pattern; reserved)
makes `sanitizeTopic` fail, in which case `knowledgeRead` and
`knowledgeWrite` return the descriptive warning string and touch no file
(the Lean functions are total — the thrown error is caught internally and
never propagates); and for every topic argument whatsoever, every path
either call reads or writes is a single file directly inside the knowledge
directory. -/
theorem knowledge_invalid_topic_rejected_and_confined
    (fs : String → Option String) (dataDir topic content : String)
    (mode : WriteMode) :
    (∀ m, sanitizeTopic topic = Except.error m →
      knowledgeRead fs dataDir topic =
        { message := "Warning: Invalid topic: " ++ m,
          reads := [], writes := [] } ∧
      knowledgeWrite fs dataDir topic content mode =
        { message := "Warning: Invalid topic: " ++ m,
          reads := [], writes := [] }) ∧
    (jsTrim topic = "" → ∃ m, sanitizeTopic topic = Except.error m) ∧
    ((includesChar (jsTrim topic) '/' = true
        ∨ includesChar (jsTrim topic) '\\' = true
        ∨ hasDotDot (jsTrim topic) = true) →
      ∃ m, sanitizeTopic topic = Except.error m) ∧
    (validTopicPattern (jsTrim topic) = false →
      ∃ m, sanitizeTopic topic = Except.error m) ∧
    (RESERVED_TOPICS.contains (jsTrim topic).toLower = true →
      ∃ m, sanitizeTopic topic = Except.error m) ∧
    (∀ p ∈ (knowledgeRead fs dataDir topic).reads, inKnowledgeDir dataDir p) ∧
    (∀ pr ∈ (knowledgeRead fs dataDir topic).writes,
      inKnowledgeDir dataDir pr.1) ∧
    (∀ p ∈ (knowledgeWrite fs dataDir topic content mode).reads,
      inKnowledgeDir dataDir p) ∧
    (∀ pr ∈ (knowledgeWrite fs dataDir topic content mode).writes,
      inKnowledgeDir dataDir pr.1) := by
  refine ⟨?_, ?_, ?_, ?_, ?_, ?_, ?_, ?_, ?_⟩
  · intro m hm
    exact ⟨by simp [knowledgeRead, hm], by simp [knowledgeWrite, hm]⟩
  · intro hcond
    rcases hres : sanitizeTopic topic with m | s
    · exact ⟨m, rfl⟩
    · have props := sanitizeTopic_ok_props topic s hres
      exact absurd (props.1.trans hcond) props.2.1
  · intro hcond
    rcases hres : sanitizeTopic topic with m | s
    · exact ⟨m, rfl⟩
    · have props := sanitizeTopic_ok_props topic s hres
      rw [← props.1] at hcond
      rcases hcond with h | h | h
      · rw [props.2.2.1] at h; exact absurd h (by simp)
      · rw [props.2.2.2.1] at h; exact absurd h (by simp)
      · rw [props.2.2.2.2.1] at h; exact absurd h (by simp)
  · intro hcond
    rcases hres : sanitizeTopic topic with m | s
    · exact ⟨m, rfl⟩
    · have props := sanitizeTopic_ok_props topic s hres
      rw [← props.1, props.2.2.2.2.2.1] at hcond
      exact absurd hcond (by simp)
  · intro hcond
    rcases hres : sanitizeTopic topic with m | s
    · exact ⟨m, rfl⟩
    · have props := sanitizeTopic_ok_props topic s hres
      rw [← props.1, props.2.2.2.2.2.2] at hcond
      exact absurd hcond (by simp)
  · intro p hp
    rcases hres : sanitizeTopic topic with m | s
    · simp [knowledgeRead, hres] at hp
    · have props := sanitizeTopic_ok_props topic s hres
      rcases hfs : fs (knowledgeDirPath dataDir ++ "/" ++ (s ++ ".md")) with _ | txt
      all_goals
        simp [knowledgeRead, hres, hfs] at hp
        subst hp
        exact topicFile_inKnowledgeDir dataDir s props.2.2.1 props.2.2.2.1
  · intro pr hpr
    rcases hres : sanitizeTopic topic with m | s
    · simp [knowledgeRead, hres] at hpr
    · rcases hfs : fs (knowledgeDirPath dataDir ++ "/" ++ (s ++ ".md")) with _ | txt
      all_goals simp [knowledgeRead, hres, hfs] at hpr
  · intro p hp
    rcases hres : sanitizeTopic topic with m | s
    · simp [knowledgeWrite, hres] at hp
    · have props := sanitizeTopic_ok_props topic s hres
      cases mode with
      | overwrite =>
        simp [knowledgeWrite, hres] at hp
        rcases hp with h | h
        · subst h; exact indexFile_inKnowledgeDir dataDir
        · subst h
          exact topicFile_inKnowledgeDir dataDir s props.2.2.1 props.2.2.2.1
      | append =>
        simp [knowledgeWrite, hres] at hp
        rcases hp with h | h | h
        · subst h
          exact topicFile_inKnowledgeDir dataDir s props.2.2.1 props.2.2.2.1
        · subst h; exact indexFile_inKnowledgeDir dataDir
        · subst h
          exact topicFile_inKnowledgeDir dataDir s props.2.2.1 props.2.2.2.1
  · intro pr hpr
    rcases hres : sanitizeTopic topic with m | s
    · simp [knowledgeWrite, hres] at hpr
    · have props := sanitizeTopic_ok_props topic s hres
      simp [knowledgeWrite, hres] at hpr
      rcases hpr with h | h
      · rw [h]
        exact topicFile_inKnowledgeDir dataDir s props.2.2.1 props.2.2.2.1
      · rw [h, updateIndexEntry_fst]
        exact indexFile_inKnowledgeDir dataDir

deriving instance DecidableEq for Except

/-- Empty filesystem for the C9 witness. -/
def fsC9 : String → Option String := fun _ => none

/-- Witness for C9 at the concrete traversal attempt `"../etc/passwd"`:
both calls return the warning and touch no file. -/
theorem knowledge_invalid_topic_witness :
    knowledgeRead fsC9 "data" "../etc/passwd" =
      { message :=
          "Warning: Invalid topic: Invalid characters in topic: ../etc/passwd",
        reads := [], writes := [] } ∧
    knowledgeWrite fsC9 "data" "../etc/passwd" "pwned" WriteMode.overwrite =
      { message :=
          "Warning: Invalid topic: Invalid characters in topic: ../etc/passwd",
        reads := [], writes := [] } := by
  have h := (knowledge_invalid_topic_rejected_and_confined fsC9 "data"
    "../etc/passwd" "pwned" WriteMode.overwrite).1
    "Invalid characters in topic: ../etc/passwd" (by decide)
  exact ⟨h.1, h.2⟩

/-- C10: `loadState` on a file that parses keeps every stored field, fills
every missing field from the defaults (`spentUsd = 0`, `spentCalls = 0`,
token counters 0, `currentBranch`/`currentSha` null, `bgEnabled = false`,
`bgWakeupSec = 300`, timestamps/uuid freshly generated), and does not write
the merged result back; only on a read/parse failure does it create a full
default state and persist it. -/
theorem loadState_merge_no_writeback (p : PartialStateData) (n u : String) :
    (loadState (StateFile.parsed p) n u).2 = StateFile.parsed p ∧
    (loadState (StateFile.parsed p) n u).1 =
      { createdAt := p.createdAt.getD n,
        sessionId := p.sessionId.getD u,
        spentUsd := p.spentUsd.getD 0,
        spentCalls := p.spentCalls.getD 0,
        spentTokensPrompt := p.spentTokensPrompt.getD 0,
        spentTokensCompletion := p.spentTokensCompletion.getD 0,
        currentBranch := p.currentBranch.getD none,
        currentSha := p.currentSha.getD none,
        bgEnabled := p.bgEnabled.getD false,
        bgWakeupSec := p.bgWakeupSec.getD 300,
        lastInteractionAt := p.lastInteractionAt.getD n } ∧
    loadState StateFile.unreadable n u
      = (defaultState n u, saveState (defaultState n u)) := by
  exact ⟨rfl, rfl, rfl⟩
